import Mathlib

/-!
Shallow embedding of `weather_app.py` (AI-Weather-Reporter): the background
worker `WeatherWorker.run`, its helper `_generate_ai_description`, and the
temperature formatting used by `WeatherApp.display_weather`.

Network and environment behaviour is abstracted by oracles: the outcome of the
single weather request is a `WeatherOutcome`, and the outcome of the k-th
Gemini generation attempt is `gen k : GenAttempt`. Observable effects (network
calls, sleeps, and the three Qt signals `result` / `error` / `finished`) are
recorded in order in a trace of `Event`s.
-/

/-- Structured form of the weather JSON body after a 2xx response, holding the
fields the program reads: `cod` and `name` via `dict.get` (hence `Option`),
and the required fields `main.temp`, `main.feels_like`, `main.humidity`,
`wind.speed`, `weather[0].main`, `weather[0].description`, `weather[0].id`.
Temperatures and wind speed are modelled as rationals. -/
structure WeatherData where
  cod : Option Int
  name : Option String
  mainTemp : ℚ
  mainFeelsLike : ℚ
  mainHumidity : Int
  windSpeed : ℚ
  weatherMain : String
  weatherDescription : String
  weatherId : Int
deriving DecidableEq

/-- One text part of the Gemini response: the `text` key, optional. -/
structure GenPart where
  text : Option String
deriving DecidableEq

/-- The `content` object of a Gemini candidate: optional `parts` list. -/
structure GenContent where
  parts : Option (List GenPart)
deriving DecidableEq

/-- One Gemini candidate: optional `content` object. -/
structure GenCandidate where
  content : Option GenContent
deriving DecidableEq

/-- A parsed Gemini response envelope: optional `candidates` list. -/
structure GenResponse where
  candidates : Option (List GenCandidate)
deriving DecidableEq

/-- Outcome of one generation attempt (one `requests.post` + `raise_for_status`
+ `response.json()`), as classified by the two `except` clauses of
`_generate_ai_description`:
* `transport`: a `requests.exceptions.RequestException` was raised (connection
  error, timeout, or `raise_for_status` on a non-2xx status);
* `otherError`: some exception that is not a `RequestException` was raised
  before the candidate extraction (e.g. a body that fails to parse);
* `ok resp`: `response.json()` returned the envelope `resp`. -/
inductive GenAttempt where
  | transport
  | otherError
  | ok (resp : GenResponse)
deriving DecidableEq

/-- Observable events of one worker run, in program order. -/
inductive Event where
  | weatherCall (city : String) (key : String)
  | genCall (userPrompt : String)
  | sleep (seconds : Nat)
  | sigResult (data : WeatherData) (aiDescription : String)
  | sigError (message : String)
  | sigFinished
  | offlineReached
deriving DecidableEq

/-- True exactly for generation-call events. -/
def isGenCall : Event → Bool
  | .genCall _ => true
  | _ => false

/-- Result of `_generate_ai_description`: the returned string together with the
trace of generation calls and backoff sleeps it performed. -/
structure GenResult where
  text : String
  trace : List Event
deriving DecidableEq

/-- Candidate-text extraction,
`result.get('candidates', [{}])[0].get('content', {}).get('parts', [{}])[0].get('text', 'AI response unavailable.')`:
a missing key falls back to the `dict.get` default, but indexing `[0]` into a
present-but-empty list raises `IndexError` (modelled as `.error ()`), which the
surrounding `except Exception` clause of the loop catches. -/
def extractText (r : GenResponse) : Except Unit String :=
  match r.candidates with
  | none => Except.ok "AI response unavailable."
  | some [] => Except.error ()
  | some (c :: _) =>
    match c.content with
    | none => Except.ok "AI response unavailable."
    | some ct =>
      match ct.parts with
      | none => Except.ok "AI response unavailable."
      | some [] => Except.error ()
      | some (p :: _) =>
        Except.ok (p.text.getD "AI response unavailable.")

/-- Extraction result as the loop body sees it: a raised `IndexError` is caught
by `except Exception` and degrades to the analyzing fallback. -/
def extractedOrAnalyzing (r : GenResponse) : String :=
  match extractText r with
  | Except.ok t => t
  | Except.error _ => "AI reporter analyzing data..."

/-- `max_retries = 3` in `_generate_ai_description`. -/
def maxRetries : Nat := 3

/-- The `for attempt in range(max_retries)` loop of `_generate_ai_description`,
with the remaining iteration count as fuel. `attempt` is the current loop
index and `wait` the current `wait_time`. Falling off the end of the loop
(fuel `0`) returns the defensive "offline" string; `offlineReached` marks that
this code point was executed. -/
def genLoop (p : String) (gen : Nat → GenAttempt) : Nat → Nat → Nat → GenResult
  | 0, _, _ => ⟨"AI reporter is offline.", [Event.offlineReached]⟩
  | fuel + 1, attempt, wait =>
    match gen attempt with
    | GenAttempt.transport =>
      if attempt < maxRetries - 1 then
        let r := genLoop p gen fuel (attempt + 1) (wait * 2)
        ⟨r.text, Event.genCall p :: Event.sleep wait :: r.trace⟩
      else
        ⟨"AI reporter failed to connect after multiple attempts.", [Event.genCall p]⟩
    | GenAttempt.otherError => ⟨"AI reporter analyzing data...", [Event.genCall p]⟩
    | GenAttempt.ok resp => ⟨extractedOrAnalyzing resp, [Event.genCall p]⟩

/-- Round the fraction `num / den` (with `den > 0`, not necessarily reduced)
to the nearest integer, ties to even — the rounding used by CPython
fixed-point formatting (`format(x, '.0f')`). `f` is the floor of the fraction
and `r / den` its fractional part. -/
def roundHalfEvenFrac (num : ℤ) (den : ℕ) : ℤ :=
  let f : ℤ := num.fdiv den
  let r : ℤ := num - f * den
  if 2 * r < den then f
  else if (den : ℤ) < 2 * r then f + 1
  else if f % 2 = 0 then f else f + 1

/-- Fixed-point formatting with no decimals, `f"{x:.0f}"`. -/
def formatFixed0 (q : ℚ) : String := toString (roundHalfEvenFrac q.num q.den)

/-- Fixed-point formatting with one decimal, `f"{x:.1f}"`: round `10 * q`
half-to-even to an integer count of tenths, then print it with the decimal
point inserted. -/
def formatFixed1 (q : ℚ) : String :=
  let n : ℤ := roundHalfEvenFrac (q.num * 10) q.den
  let s := if n < 0 then "-" else ""
  s ++ toString (n.natAbs / 10) ++ "." ++ toString (n.natAbs % 10)

/-- Rendering of a float by Python `str`, for values with a short decimal
expansion: an integral value prints with a trailing `.0`, otherwise the
shortest exact decimal expansion is printed. -/
def pyFloatStr (q : ℚ) : String :=
  match (List.range 18).find? (fun n => (10 : ℕ) ^ n % q.den = 0) with
  | some 0 => toString q.num ++ ".0"
  | some (n + 1) =>
    let m : ℤ := q.num * (((10 : ℕ) ^ (n + 1) / q.den : ℕ) : ℤ)
    let s := if m < 0 then "-" else ""
    let digits := toString (m.natAbs % 10 ^ (n + 1))
    s ++ toString (m.natAbs / 10 ^ (n + 1)) ++ "." ++
      String.mk (List.replicate (n + 1 - digits.length) '0') ++ digits
  | none => toString q.num ++ "/" ++ toString q.den

/-- The user prompt built at the top of `_generate_ai_description`, with
Celsius conversion `kelvin - 273.15` rendered at one decimal place. -/
def buildUserPrompt (d : WeatherData) : String :=
  "Write a summary for the weather in " ++ d.name.getD "Unknown Location" ++ ". " ++
  "The current temperature is " ++ formatFixed1 (d.mainTemp - 273.15) ++ "°C, " ++
  "but it feels like " ++ formatFixed1 (d.mainFeelsLike - 273.15) ++ "°C. " ++
  "Humidity is " ++ toString d.mainHumidity ++ "% and wind speed is " ++
  pyFloatStr d.windSpeed ++ " m/s." ++
  "The main condition is \x27" ++ d.weatherMain ++
  "\x27 with a detailed description of \x27" ++ d.weatherDescription ++ "\x27."

/-- The whole of `_generate_ai_description data`: build the prompt, then run
the retry loop with `wait_time = 1` from attempt `0`. -/
def generateAiDescription (d : WeatherData) (gen : Nat → GenAttempt) : GenResult :=
  genLoop (buildUserPrompt d) gen maxRetries 0 1

/-- Outcome of the single weather request of `WeatherWorker.run` (the
`requests.get` + `raise_for_status` + `response.json()` of step 1), as
classified by the `except` clauses of `run`:
* `httpError s`: `raise_for_status` raised `HTTPError` for status `s`;
* `requestError e`: some other `requests.exceptions.RequestException`
  (connection error, timeout) with text `e`;
* `otherError e`: an exception that is neither of the above, with text `e`;
* `ok d`: the body parsed to `d`. -/
inductive WeatherOutcome where
  | httpError (status : Nat)
  | requestError (detail : String)
  | otherError (detail : String)
  | ok (d : WeatherData)
deriving DecidableEq

/-- Process-wide configuration read by the worker: `os.getenv` result for
`OPENWEATHER_API_KEY` (`none` when the variable is unset). -/
structure Env where
  openweatherApiKey : Option String
deriving DecidableEq

/-- Python truthiness test `not openweather_api_key`: true when `os.getenv`
returned `None` or the empty string. -/
def keyMissing : Option String → Bool
  | none => true
  | some s => s.isEmpty

/-- The `match status_code` classification in the `HTTPError` handler of
`WeatherWorker.run`. -/
def httpErrorMessage (status : Nat) : String :=
  if status = 400 then "Bad Request: Check city spelling."
  else if status = 401 then "Unauthorized: Invalid OpenWeatherMap Key."
  else if status = 404 then "Not Found: City not found."
  else "HTTP Error " ++ toString status ++ ": Please try again."

/-- The whole of `WeatherWorker.run`, as the trace of events it produces.
The missing-credential check sits before the `try`/`finally`, so its early
return emits no `finished` signal. In the `try` body, a `cod` field unequal
to `200` emits the invalid-response error; otherwise the AI description is
generated, attached to the data, and emitted via `result`. The three
`except` handlers classify the exception, and the `finally` clause appends
one `finished` signal on every path through the `try` statement. -/
def runWorker (env : Env) (cityName : String) (weather : WeatherOutcome)
    (gen : Nat → GenAttempt) : List Event :=
  if keyMissing env.openweatherApiKey then
    [Event.sigError "ERROR: OPENWEATHER_API_KEY not set."]
  else
    let key := env.openweatherApiKey.getD ""
    (match weather with
      | WeatherOutcome.ok d =>
        if d.cod = some 200 then
          let g := generateAiDescription d gen
          Event.weatherCall cityName key :: g.trace ++ [Event.sigResult d g.text]
        else
          [Event.weatherCall cityName key,
            Event.sigError "City not found or invalid response from weather API."]
      | WeatherOutcome.httpError s =>
        [Event.weatherCall cityName key, Event.sigError (httpErrorMessage s)]
      | WeatherOutcome.requestError e =>
        [Event.weatherCall cityName key,
          Event.sigError ("Connection Error: Check your internet or API access. (" ++ e ++ ")")]
      | WeatherOutcome.otherError e =>
        [Event.weatherCall cityName key,
          Event.sigError ("An unexpected error occurred during weather fetch: " ++ e)])
      ++ [Event.sigFinished]

/-- Temperature text set by `WeatherApp.display_weather`:
`f"{temperature_in_K - 273.15:.0f}°"`. -/
def displayTempText (kelvin : ℚ) : String :=
  formatFixed0 (kelvin - 273.15) ++ "°"

/-- A sample parsed weather body used as concrete input in witnesses. -/
def sampleData : WeatherData :=
  ⟨some 200, some "Testville", 273.15, 273.15, 50, mkRat 7 2, "Clear", "clear sky", 800⟩

/-- A sample well-formed Gemini response whose first candidate's first part
carries the text "Nice day.". -/
def sampleResponse : GenResponse :=
  ⟨some [⟨some ⟨some [⟨some "Nice day."⟩]⟩⟩]⟩

/-- True exactly for error-signal events. -/
def isSigError : Event → Bool
  | .sigError _ => true
  | _ => false

example :
    genLoop "p" (fun _ => GenAttempt.transport) 3 0 1 =
      ⟨"AI reporter failed to connect after multiple attempts.",
        [Event.genCall "p", Event.sleep 1, Event.genCall "p", Event.sleep 2,
          Event.genCall "p"]⟩ := by
  decide

example : formatFixed1 ((273.15 : ℚ) - 273.15) = "0.0" := by
  have h : (273.15 : ℚ) - 273.15 = 0 := by norm_num
  rw [h]
  decide

example : pyFloatStr (mkRat 7 2) = "3.5" := by decide

/-- C1: the claim states that every run emits exactly one of `result`/`error`
and then `finished` exactly once. The code violates this on the
missing-credential path: the early return at the top of `WeatherWorker.run`
sits before the `try`/`finally`, so the `finally` clause — whose comment reads
"Always signal completion" — never runs, and `finished` is never emitted. This
theorem evaluates the run at the failing input (`OPENWEATHER_API_KEY` unset):
the whole trace is the single `error` signal, with zero `finished` signals. -/
theorem c1_missing_key_omits_finished (city : String) (w : WeatherOutcome)
    (gen : Nat → GenAttempt) :
    runWorker ⟨none⟩ city w gen =
      [Event.sigError "ERROR: OPENWEATHER_API_KEY not set."] ∧
    (runWorker ⟨none⟩ city w gen).count Event.sigFinished = 0 := by
  have e : runWorker ⟨none⟩ city w gen =
      [Event.sigError "ERROR: OPENWEATHER_API_KEY not set."] := rfl
  exact ⟨e, by rw [e]; decide⟩

/-- C2: if the weather API credential is absent (or empty, which Python
truthiness treats the same), the run performs no network call and emits the
error naming the missing credential as its only observable effect. -/
theorem c2_missing_credential_no_network (env : Env) (city : String)
    (w : WeatherOutcome) (gen : Nat → GenAttempt)
    (h : keyMissing env.openweatherApiKey = true) :
    runWorker env city w gen =
      [Event.sigError "ERROR: OPENWEATHER_API_KEY not set."] ∧
    (∀ c k, Event.weatherCall c k ∉ runWorker env city w gen) ∧
    (∀ p, Event.genCall p ∉ runWorker env city w gen) := by
  have e : runWorker env city w gen =
      [Event.sigError "ERROR: OPENWEATHER_API_KEY not set."] := by
    simp [runWorker, h]
  refine ⟨e, ?_, ?_⟩ <;> intros <;> rw [e] <;> simp

theorem c2_witness :
    keyMissing (Env.mk none).openweatherApiKey = true ∧
    (runWorker ⟨none⟩ "London" (WeatherOutcome.ok sampleData)
        (fun _ => GenAttempt.transport) =
      [Event.sigError "ERROR: OPENWEATHER_API_KEY not set."] ∧
    (∀ c k, Event.weatherCall c k ∉ runWorker ⟨none⟩ "London"
        (WeatherOutcome.ok sampleData) (fun _ => GenAttempt.transport)) ∧
    (∀ p, Event.genCall p ∉ runWorker ⟨none⟩ "London"
        (WeatherOutcome.ok sampleData) (fun _ => GenAttempt.transport))) :=
  ⟨rfl, c2_missing_credential_no_network ⟨none⟩ "London"
    (WeatherOutcome.ok sampleData) (fun _ => GenAttempt.transport) rfl⟩

/-- C3: when all three generation attempts fail with a transport error, the
loop makes exactly 3 calls, sleeping 1 second before attempt 2 and 2 seconds
before attempt 3 (none before attempt 1), and returns the fixed
failed-to-connect fallback. -/
theorem c3_transport_failures_three_attempts (d : WeatherData)
    (gen : Nat → GenAttempt) (h0 : gen 0 = GenAttempt.transport)
    (h1 : gen 1 = GenAttempt.transport) (h2 : gen 2 = GenAttempt.transport) :
    generateAiDescription d gen =
      ⟨"AI reporter failed to connect after multiple attempts.",
        [Event.genCall (buildUserPrompt d), Event.sleep 1,
          Event.genCall (buildUserPrompt d), Event.sleep 2,
          Event.genCall (buildUserPrompt d)]⟩ ∧
    ((generateAiDescription d gen).trace.countP isGenCall) = 3 := by
  have e : generateAiDescription d gen =
      ⟨"AI reporter failed to connect after multiple attempts.",
        [Event.genCall (buildUserPrompt d), Event.sleep 1,
          Event.genCall (buildUserPrompt d), Event.sleep 2,
          Event.genCall (buildUserPrompt d)]⟩ := by
    simp [generateAiDescription, genLoop, maxRetries, h0, h1, h2]
  exact ⟨e, by rw [e]; simp [isGenCall]⟩

theorem c3_witness :
    (fun _ => GenAttempt.transport) 0 = GenAttempt.transport ∧
    generateAiDescription sampleData (fun _ => GenAttempt.transport) =
      ⟨"AI reporter failed to connect after multiple attempts.",
        [Event.genCall (buildUserPrompt sampleData), Event.sleep 1,
          Event.genCall (buildUserPrompt sampleData), Event.sleep 2,
          Event.genCall (buildUserPrompt sampleData)]⟩ :=
  ⟨rfl, (c3_transport_failures_three_attempts sampleData
    (fun _ => GenAttempt.transport) rfl rfl rfl).1⟩

/-- C4: a non-transport failure at any attempt `k` makes the generator return
the analyzing fallback at once: exactly `k + 1` calls are made, the trace ends
with that call (no further sleep or retry), and the text is the fixed
analyzing fallback. -/
theorem c4_non_transport_immediate_fallback (d : WeatherData)
    (gen : Nat → GenAttempt) (k : Nat) (hk : k < 3)
    (hother : gen k = GenAttempt.otherError)
    (hprev : ∀ i, i < k → gen i = GenAttempt.transport) :
    (generateAiDescription d gen).text = "AI reporter analyzing data..." ∧
    ((generateAiDescription d gen).trace.countP isGenCall) = k + 1 ∧
    (generateAiDescription d gen).trace.getLast? =
      some (Event.genCall (buildUserPrompt d)) := by
  interval_cases k
  · simp [generateAiDescription, genLoop, maxRetries, hother, isGenCall]
  · have h0 := hprev 0 (by norm_num)
    simp [generateAiDescription, genLoop, maxRetries, h0, hother, isGenCall]
  · have h0 := hprev 0 (by norm_num)
    have h1 := hprev 1 (by norm_num)
    simp [generateAiDescription, genLoop, maxRetries, h0, h1, hother, isGenCall]

theorem c4_witness :
    (1 : Nat) < 3 ∧
    ((generateAiDescription sampleData
        (fun i => if i = 0 then GenAttempt.transport else GenAttempt.otherError)).text =
      "AI reporter analyzing data..." ∧
    ((generateAiDescription sampleData
        (fun i => if i = 0 then GenAttempt.transport else GenAttempt.otherError)).trace.countP
          isGenCall) = 1 + 1 ∧
    (generateAiDescription sampleData
        (fun i => if i = 0 then GenAttempt.transport else GenAttempt.otherError)).trace.getLast? =
      some (Event.genCall (buildUserPrompt sampleData))) :=
  ⟨by norm_num,
    c4_non_transport_immediate_fallback sampleData
      (fun i => if i = 0 then GenAttempt.transport else GenAttempt.otherError) 1
      (by norm_num) (by norm_num)
      (fun i hi => by interval_cases i; norm_num)⟩

/-- C5: on an HTTP-level weather failure the surfaced message is classified
from the status code — 404 the city-not-found variant, 401 the invalid-key
variant, 400 the bad-spelling variant, and any other status `s` the generic
"HTTP Error s" variant — and exactly one error signal is emitted. -/
theorem c5_http_error_classification (k city : String) (s : Nat)
    (gen : Nat → GenAttempt) (hk : keyMissing (some k) = false) :
    runWorker ⟨some k⟩ city (WeatherOutcome.httpError s) gen =
      [Event.weatherCall city k, Event.sigError (httpErrorMessage s),
        Event.sigFinished] ∧
    ((runWorker ⟨some k⟩ city (WeatherOutcome.httpError s) gen).countP isSigError) = 1 ∧
    httpErrorMessage 404 = "Not Found: City not found." ∧
    httpErrorMessage 401 = "Unauthorized: Invalid OpenWeatherMap Key." ∧
    httpErrorMessage 400 = "Bad Request: Check city spelling." ∧
    (s ≠ 400 → s ≠ 401 → s ≠ 404 →
      httpErrorMessage s = "HTTP Error " ++ toString s ++ ": Please try again.") := by
  have e : runWorker ⟨some k⟩ city (WeatherOutcome.httpError s) gen =
      [Event.weatherCall city k, Event.sigError (httpErrorMessage s),
        Event.sigFinished] := by
    simp [runWorker, hk]
  refine ⟨e, ?_, rfl, rfl, rfl, ?_⟩
  · rw [e]; simp [isSigError]
  · intro h4 h1 h0
    simp [httpErrorMessage, h4, h1, h0]

theorem c5_witness :
    keyMissing (some "k") = false ∧
    httpErrorMessage 500 = "HTTP Error 500: Please try again." :=
  ⟨rfl, (c5_http_error_classification "k" "London" 500
    (fun _ => GenAttempt.transport) rfl).2.2.2.2.2
      (by decide) (by decide) (by decide)⟩

/-- C6: a weather body whose `cod` field is not `200` makes the run emit the
invalid-response error, and no `result` signal ever fires. -/
theorem c6_bad_cod_no_result (k city : String) (d : WeatherData)
    (gen : Nat → GenAttempt) (hk : keyMissing (some k) = false)
    (hcod : d.cod ≠ some 200) :
    runWorker ⟨some k⟩ city (WeatherOutcome.ok d) gen =
      [Event.weatherCall city k,
        Event.sigError "City not found or invalid response from weather API.",
        Event.sigFinished] ∧
    ∀ d2 t, Event.sigResult d2 t ∉ runWorker ⟨some k⟩ city (WeatherOutcome.ok d) gen := by
  have e : runWorker ⟨some k⟩ city (WeatherOutcome.ok d) gen =
      [Event.weatherCall city k,
        Event.sigError "City not found or invalid response from weather API.",
        Event.sigFinished] := by
    simp [runWorker, hk, hcod]
  refine ⟨e, ?_⟩
  intro d2 t
  rw [e]
  simp

theorem c6_witness :
    keyMissing (some "k") = false ∧
    ((⟨some 404, none, 0, 0, 0, 0, "", "", 0⟩ : WeatherData).cod ≠ some 200) ∧
    runWorker ⟨some "k"⟩ "London"
        (WeatherOutcome.ok ⟨some 404, none, 0, 0, 0, 0, "", "", 0⟩)
        (fun _ => GenAttempt.transport) =
      [Event.weatherCall "London" "k",
        Event.sigError "City not found or invalid response from weather API.",
        Event.sigFinished] :=
  ⟨rfl, by decide,
    (c6_bad_cod_no_result "k" "London" ⟨some 404, none, 0, 0, 0, 0, "", "", 0⟩
      (fun _ => GenAttempt.transport) rfl (by decide)).1⟩

/-- C7 counterexample: the claim says a response with empty `candidates`
yields "AI response unavailable.", but indexing `[0]` into the present empty
list raises `IndexError`, which the `except Exception` clause turns into
"AI reporter analyzing data...". -/
theorem c7_counterexample_empty_candidates :
    (generateAiDescription sampleData
        (fun _ => GenAttempt.ok ⟨some []⟩)).text =
      "AI reporter analyzing data..." ∧
    (generateAiDescription sampleData
        (fun _ => GenAttempt.ok ⟨some []⟩)).text ≠
      "AI response unavailable." :=
  ⟨rfl, by decide⟩

/-- C7 (amended): on a successful generation response the first candidate's
first text part is returned; a structural path absent because a key is
missing (`candidates`, `content`, `parts` or `text` key) degrades to
"AI response unavailable." as a success with a single call and no retry; a
present-but-empty `candidates` or `parts` list instead raises and degrades to
"AI reporter analyzing data...". -/
theorem c7_extraction_cases (d : WeatherData) (gen : Nat → GenAttempt)
    (resp : GenResponse) (h0 : gen 0 = GenAttempt.ok resp) :
    (generateAiDescription d gen).trace = [Event.genCall (buildUserPrompt d)] ∧
    (resp.candidates = none →
      (generateAiDescription d gen).text = "AI response unavailable.") ∧
    (resp.candidates = some [] →
      (generateAiDescription d gen).text = "AI reporter analyzing data...") ∧
    (∀ c cs, resp.candidates = some (c :: cs) → c.content = none →
      (generateAiDescription d gen).text = "AI response unavailable.") ∧
    (∀ c cs ct, resp.candidates = some (c :: cs) → c.content = some ct →
      ct.parts = none →
      (generateAiDescription d gen).text = "AI response unavailable.") ∧
    (∀ c cs ct, resp.candidates = some (c :: cs) → c.content = some ct →
      ct.parts = some [] →
      (generateAiDescription d gen).text = "AI reporter analyzing data...") ∧
    (∀ c cs ct p ps, resp.candidates = some (c :: cs) → c.content = some ct →
      ct.parts = some (p :: ps) → p.text = none →
      (generateAiDescription d gen).text = "AI response unavailable.") ∧
    (∀ c cs ct p ps t, resp.candidates = some (c :: cs) → c.content = some ct →
      ct.parts = some (p :: ps) → p.text = some t →
      (generateAiDescription d gen).text = t) := by
  have e : generateAiDescription d gen =
      ⟨extractedOrAnalyzing resp, [Event.genCall (buildUserPrompt d)]⟩ := by
    simp [generateAiDescription, genLoop, maxRetries, h0]
  rw [e]
  refine ⟨rfl, ?_, ?_, ?_, ?_, ?_, ?_, ?_⟩ <;>
    · intros
      simp_all [extractedOrAnalyzing, extractText]

theorem c7_witness :
    (fun _ => GenAttempt.ok (⟨none⟩ : GenResponse)) 0 =
      GenAttempt.ok (⟨none⟩ : GenResponse) ∧
    (generateAiDescription sampleData
        (fun _ => GenAttempt.ok (⟨none⟩ : GenResponse))).text =
      "AI response unavailable." :=
  ⟨rfl, (c7_extraction_cases sampleData
    (fun _ => GenAttempt.ok (⟨none⟩ : GenResponse)) ⟨none⟩ rfl).2.1 rfl⟩

/-- C8: for every oracle, the generator is a total function returning a
string, and the defensive "AI reporter is offline." return after the loop is
never executed: the loop-exit marker never appears in the trace. -/
theorem c8_offline_fallback_unreachable (d : WeatherData)
    (gen : Nat → GenAttempt) :
    Event.offlineReached ∉ (generateAiDescription d gen).trace := by
  cases h0 : gen 0 <;> cases h1 : gen 1 <;> cases h2 : gen 2 <;>
    simp [generateAiDescription, genLoop, maxRetries, h0, h1, h2]

/-- C9 counterexample: the claim says the summary of a fully successful run
is non-empty, but nothing stops the generation response from carrying an
empty text part: here every stage succeeds and the emitted enriched report
carries the empty string as its summary. -/
theorem c9_counterexample_empty_summary :
    runWorker ⟨some "k"⟩ "London" (WeatherOutcome.ok sampleData)
        (fun _ => GenAttempt.ok ⟨some [⟨some ⟨some [⟨some ""⟩]⟩⟩]⟩) =
      [Event.weatherCall "London" "k",
        Event.genCall (buildUserPrompt sampleData),
        Event.sigResult sampleData "", Event.sigFinished] ∧
    Event.sigResult sampleData "" ∈
      runWorker ⟨some "k"⟩ "London" (WeatherOutcome.ok sampleData)
        (fun _ => GenAttempt.ok ⟨some [⟨some ⟨some [⟨some ""⟩]⟩⟩]⟩) ∧
    ("" : String).length = 0 := by
  have e : runWorker ⟨some "k"⟩ "London" (WeatherOutcome.ok sampleData)
        (fun _ => GenAttempt.ok ⟨some [⟨some ⟨some [⟨some ""⟩]⟩⟩]⟩) =
      [Event.weatherCall "London" "k",
        Event.genCall (buildUserPrompt sampleData),
        Event.sigResult sampleData "", Event.sigFinished] := rfl
  exact ⟨e, by rw [e]; simp, rfl⟩

/-- C9 (amended): a successful weather fetch followed by the generator yields
a result event carrying the weather data unmodified with only the summary
attached, and the summary is non-empty provided every successful extraction
the oracle can produce is non-empty (the fixed fallback strings are all
non-empty; only a literally empty AI text part yields an empty summary). -/
theorem c9_frame_and_nonempty (k city : String) (d : WeatherData)
    (gen : Nat → GenAttempt) (hk : keyMissing (some k) = false)
    (hcod : d.cod = some 200)
    (hne : ∀ i r s, gen i = GenAttempt.ok r → extractText r = Except.ok s →
      s ≠ "") :
    runWorker ⟨some k⟩ city (WeatherOutcome.ok d) gen =
      Event.weatherCall city k :: (generateAiDescription d gen).trace ++
        [Event.sigResult d (generateAiDescription d gen).text,
          Event.sigFinished] ∧
    (generateAiDescription d gen).text ≠ "" := by
  constructor
  · simp [runWorker, hk, hcod]
  · have hne3 : ∀ i resp, gen i = GenAttempt.ok resp →
        extractedOrAnalyzing resp ≠ "" := by
      intro i resp h
      unfold extractedOrAnalyzing
      cases hE : extractText resp with
      | ok s => exact hne i resp s h hE
      | error u => cases u; decide
    cases h0 : gen 0 with
    | otherError =>
      simp [generateAiDescription, genLoop, maxRetries, h0]
    | ok resp =>
      have e : (generateAiDescription d gen).text = extractedOrAnalyzing resp := by
        simp [generateAiDescription, genLoop, maxRetries, h0]
      rw [e]
      exact hne3 0 resp h0
    | transport =>
      cases h1 : gen 1 with
      | otherError =>
        simp [generateAiDescription, genLoop, maxRetries, h0, h1]
      | ok resp =>
        have e : (generateAiDescription d gen).text = extractedOrAnalyzing resp := by
          simp [generateAiDescription, genLoop, maxRetries, h0, h1]
        rw [e]
        exact hne3 1 resp h1
      | transport =>
        cases h2 : gen 2 with
        | otherError =>
          simp [generateAiDescription, genLoop, maxRetries, h0, h1, h2]
        | ok resp =>
          have e : (generateAiDescription d gen).text = extractedOrAnalyzing resp := by
            simp [generateAiDescription, genLoop, maxRetries, h0, h1, h2]
          rw [e]
          exact hne3 2 resp h2
        | transport =>
          simp [generateAiDescription, genLoop, maxRetries, h0, h1, h2]

theorem c9_witness :
    keyMissing (some "k") = false ∧ sampleData.cod = some 200 ∧
    (runWorker ⟨some "k"⟩ "London" (WeatherOutcome.ok sampleData)
        (fun _ => GenAttempt.ok sampleResponse) =
      Event.weatherCall "London" "k" ::
        (generateAiDescription sampleData
          (fun _ => GenAttempt.ok sampleResponse)).trace ++
        [Event.sigResult sampleData
          (generateAiDescription sampleData
            (fun _ => GenAttempt.ok sampleResponse)).text,
          Event.sigFinished] ∧
    (generateAiDescription sampleData
        (fun _ => GenAttempt.ok sampleResponse)).text ≠ "") :=
  ⟨rfl, rfl,
    c9_frame_and_nonempty "k" "London" sampleData
      (fun _ => GenAttempt.ok sampleResponse) rfl rfl
      (by
        intro i r s h1 h2
        have hr : r = sampleResponse := by
          injection h1 with h
          exact h.symm
        subst hr
        simp [extractText, sampleResponse] at h2
        subst h2
        decide)⟩

set_option maxRecDepth 40000 in
/-- C10: for the input temperature 273.15 K the displayed temperature string
is "0°" (Celsius rounded to an integer), and the temperature embedded in the
generated prompt reads "0.0°C" (Celsius at one decimal place); the second
conjunct exhibits the full prompt for a body whose `main.temp` and
`main.feels_like` are 273.15. -/
theorem c10_temperature_formatting :
    displayTempText (273.15 : ℚ) = "0°" ∧
    buildUserPrompt sampleData =
      "Write a summary for the weather in Testville. The current temperature is 0.0°C, but it feels like 0.0°C. Humidity is 50% and wind speed is 3.5 m/s.The main condition is \x27Clear\x27 with a detailed description of \x27clear sky\x27." := by
  have h : (273.15 : ℚ) - 273.15 = 0 := by norm_num
  constructor
  · unfold displayTempText
    rw [h]
    decide
  · simp only [buildUserPrompt, sampleData]
    rw [h]
    decide
